import Mathlib

/-!
Shallow embedding of `ossaudit`'s command-line front end (`src/ossaudit/cli.py`).

The embedding models the post-audit pipeline of the `cli` function:
ignore-list filtering, table rendering, threshold counting and the final
exit status, together with the `validate_threshold` callback and the
package-list construction.  Python values that may be numbers, strings or
missing (namedtuple fields filled from a JSON response) are modelled by
`PyVal`; Python floats are modelled by rationals, which is exact for the
decimal CVSS scores the program manipulates.
-/

/-- A Python value stored in a `Vulnerability` field: a number (Python
float/int, modelled as a rational), a string, or an unset/None value. -/
inductive PyVal where
  | num : ℚ → PyVal
  | str : String → PyVal
  | unset : PyVal
  deriving DecidableEq, Repr

/-- Modelled from the spec: `packages.Package` (module `ossaudit/packages.py`
is not under `src/`); §3 gives it the attributes `name` and `version`. -/
structure Package where
  name : String
  version : String
  deriving DecidableEq, Repr

/-- Modelled from the spec: `audit.Vulnerability` (module `ossaudit/audit.py`
is not under `src/`); §3 lists the attributes `id`, `cve`, `title`,
`description`, `cvss_score`, `reference`, plus the originating package's
`name` and `version`. -/
structure Vulnerability where
  id : String
  cve : String
  title : String
  description : String
  cvss_score : PyVal
  reference : String
  name : String
  version : String
  deriving DecidableEq, Repr

/-- The field names of the `Vulnerability` record, as Python attribute names. -/
def vulnFieldNames : List String :=
  ["id", "cve", "title", "description", "cvss_score", "reference",
   "name", "version"]

/-- Python `getattr(v, attr, default)` on a `Vulnerability`: returns the named
field, or `default` when `attr` is not a field of the record. -/
def pyGetattr (v : Vulnerability) (attr : String) (default : PyVal) : PyVal :=
  if attr = "id" then .str v.id
  else if attr = "cve" then .str v.cve
  else if attr = "title" then .str v.title
  else if attr = "description" then .str v.description
  else if attr = "cvss_score" then v.cvss_score
  else if attr = "reference" then .str v.reference
  else if attr = "name" then .str v.name
  else if attr = "version" then .str v.version
  else default

/-- cli.py lines 15-18: `validate_threshold` returns the threshold unchanged
when `0 <= threshold <= 10 or threshold == -1`, else raises
`click.BadParameter`.  The Python parameter is annotated `float`; modelled
on ℚ, with `Except` for the raised parameter error. -/
def validate_threshold (threshold : ℚ) : Except String ℚ :=
  if (0 ≤ threshold ∧ threshold ≤ 10) ∨ threshold = -1 then
    .ok threshold
  else
    .error "CVSS score can only be from 0 to 10"

/-- cli.py lines 103-106: the list comprehension keeping each vulnerability
`v` with `v.id not in ignore_ids and v.cve not in ignore_ids`. -/
def filterVulns (vulns : List Vulnerability) (ignore_ids : List String) :
    List Vulnerability :=
  vulns.filter fun v =>
    !ignore_ids.contains v.id && !ignore_ids.contains v.cve

/-- The numeric value of a decimal digit character, `none` otherwise. -/
def digitVal (c : Char) : Option Nat :=
  if c.isDigit then some (c.toNat - 48) else none

/-- The natural number denoted by a non-empty all-digit character list,
`none` otherwise. -/
def digitsToNat (cs : List Char) (acc : Nat) : Option Nat :=
  match cs with
  | [] => some acc
  | c :: rest =>
    match digitVal c with
    | some d => digitsToNat rest (acc * 10 + d)
    | none => none

/-- Python `int(s)` on a string: an optional sign followed by a non-empty
digit run denotes that integer; any other string (such as "5.5")
raises `ValueError`, modelled as `none`.  (Python also strips surrounding
whitespace and allows digit-group underscores; no claim depends on those
and they are omitted.) -/
def pyStrToInt (s : String) : Option Int :=
  match s.toList with
  | [] => none
  | c :: rest =>
    if c = '-' then
      match rest with
      | [] => none
      | _ => (digitsToNat rest 0).map fun n => -(n : Int)
    else if c = '+' then
      match rest with
      | [] => none
      | _ => (digitsToNat rest 0).map fun n => (n : Int)
    else
      (digitsToNat (c :: rest) 0).map fun n => (n : Int)

/-- Python `int(x)` applied to a `PyVal`: truncates a number toward zero,
parses a string as an integer literal (a fractional string such as "5.5"
raises `ValueError`), and raises `TypeError` on `None`/unset.  Failure is
`none`. -/
def pyInt : PyVal → Option Int
  | .num q => some (q.num.tdiv q.den)
  | .str s => pyStrToInt s
  | .unset => none

/-- The `int(v.cvss_score)` conversions of cli.py line 122, evaluated left to
right; the whole computation raises (is `none`) when any element fails. -/
def intScores (vulns : List Vulnerability) : Option (List Int) :=
  match vulns with
  | [] => some []
  | v :: rest =>
    match pyInt v.cvss_score, intScores rest with
    | some s, some tail => some (s :: tail)
    | _, _ => none

/-- cli.py line 122: `len([v for v in vulns if int(v.cvss_score) >= threshold])`.
Any `int()` conversion failure aborts the comprehension (uncaught
`ValueError`/`TypeError`), modelled as `none`. -/
def thresholdCount (vulns : List Vulnerability) (threshold : ℚ) : Option Nat :=
  (intScores vulns).map fun scores =>
    (scores.filter fun s => threshold ≤ (s : ℚ)).length

/-- Python `str.lower()` (`c.lower()` on cli.py line 115), written as a
character-by-character map over the string's character list. -/
def pyLower (s : String) : String := ⟨s.data.map Char.toLower⟩

/-- cli.py lines 115-117: the table rows
`[[getattr(v, c.lower(), "") for c in columns] for v in vulns]`. -/
def renderRows (vulns : List Vulnerability) (columns : List String) :
    List (List PyVal) :=
  vulns.map fun v => columns.map fun c => pyGetattr v (pyLower c) (.str "")

/-- One line of program output, as the structured data the line reports:
either the drawn vulnerability table (header plus rows) or the final
"Found N vulnerabilities in M packages[, K above T]" summary line. -/
inductive OutputItem where
  | table (header : List String) (rows : List (List PyVal))
  | summary (vlen plen : Nat) (thresholdInfo : Option (Nat × ℚ))
  deriving DecidableEq, Repr

/-- How the `cli` function terminates: a `sys.exit` with a code, a
`click.ClickException` carrying the `AuditError` message (click prints it
and exits 1), or an uncaught `int()` conversion error (Python exits 1). -/
inductive Outcome where
  | exited (code : Nat)
  | clickException (msg : String)
  | valueError
  deriving DecidableEq, Repr

/-- The process exit status produced by each `Outcome`. -/
def exitCode : Outcome → Nat
  | .exited c => c
  | .clickException _ => 1
  | .valueError => 1

/-- cli.py lines 110-127 on the already-filtered vulnerability list: draw the
table when `vulns` is non-empty, then branch on `threshold >= 0`, echo the
summary line and `sys.exit` on the fail condition (Python's
`sys.exit(True)` exits 1, `sys.exit(False)` exits 0).  In the threshold
branch the table has already been echoed when `int()` raises. -/
def cliTail (vulns : List Vulnerability) (columns : List String)
    (threshold : ℚ) (plen : Nat) : List OutputItem × Outcome :=
  let tableOut : List OutputItem :=
    if vulns.isEmpty then [] else [.table columns (renderRows vulns columns)]
  let vlen := vulns.length
  if 0 ≤ threshold then
    match thresholdCount vulns threshold with
    | none => (tableOut, .valueError)
    | some tlen =>
        (tableOut ++ [.summary vlen plen (some (tlen, threshold))],
         .exited (if tlen ≠ 0 then 1 else 0))
  else
    (tableOut ++ [.summary vlen plen none],
     .exited (if vlen ≠ 0 then 1 else 0))

/-- cli.py lines 102-127: the `cli` body from the `audit.components` call on.
`auditResult` is what `audit.components` did: `Except.error m` when it
raised `AuditError(m)` (re-raised as `click.ClickException(str(e))` before
any output), `Except.ok l` when it returned the list `l`. -/
def cliRun (auditResult : Except String (List Vulnerability))
    (ignore_ids columns : List String) (threshold : ℚ) (plen : Nat) :
    List OutputItem × Outcome :=
  match auditResult with
  | .error m => ([], .clickException m)
  | .ok vs => cliTail (filterVulns vs ignore_ids) columns threshold plen

/-- cli.py lines 96-100: `pkgs = []`, extended by the installed packages when
`--installed` is given, then by the file-listed packages when any `--file`
is given. -/
def buildPkgs (installed filesGiven : Bool)
    (installedPkgs filePkgs : List Package) : List Package :=
  ([] ++ (if installed then installedPkgs else []))
    ++ (if filesGiven then filePkgs else [])

/-- Spec-side definition, following §4.3's words: the count of
vulnerabilities whose `cvss_score` is at or above the threshold (a
vulnerability with a non-numeric or unset score is not at or above any
threshold).  Compared against the code's `thresholdCount`. -/
def specCountAtOrAbove (vulns : List Vulnerability) (threshold : ℚ) : Nat :=
  (vulns.filter fun v =>
    match v.cvss_score with
    | .num q => decide (threshold ≤ q)
    | _ => false).length

/-- A vulnerability value with the given `id` and `cve` and all other fields
empty or unset, as the tests construct them. -/
def mkVuln (id cve : String) : Vulnerability :=
  ⟨id, cve, "", "", .unset, "", "", ""⟩

/-- A vulnerability value carrying only a numeric CVSS score. -/
def mkScored (q : ℚ) : Vulnerability :=
  ⟨"", "", "", "", .num q, "", "", ""⟩

/-- The rational 5.5, in reduced form so that concrete evaluation stays
within kernel-computable operations. -/
def q55 : ℚ := ⟨11, 2, by decide, by decide⟩

theorem q55_eq : q55 = 11 / 2 := by
  rw [q55, Rat.mk'_eq_divInt, Rat.divInt_eq_div]
  norm_num

/-- Python truncation toward zero agrees with the floor on non-negative
rationals, so `int(score) >= t` means `score >= t` for an integer `t`. -/
theorem pyTrunc_le_iff (q : ℚ) (hq : 0 ≤ q) (t : Int) :
    t ≤ q.num.tdiv q.den ↔ (t : ℚ) ≤ q := by
  have hnum : 0 ≤ q.num := Rat.num_nonneg.mpr hq
  have hden : (0 : Int) ≤ (q.den : Int) := Int.ofNat_nonneg q.den
  rw [Int.tdiv_eq_ediv hnum hden, ← Rat.floor_def]
  exact Int.le_floor

theorem pyInt_num (q : ℚ) : pyInt (.num q) = some (q.num.tdiv q.den) := rfl

theorem thresholdCount_nil (t : ℚ) : thresholdCount [] t = some 0 := rfl

theorem thresholdCount_cons (v : Vulnerability) (vs : List Vulnerability)
    (t : ℚ) :
    thresholdCount (v :: vs) t =
      match pyInt v.cvss_score with
      | none => none
      | some s =>
          (thresholdCount vs t).map fun n => if t ≤ (s : ℚ) then n + 1 else n := by
  cases hs : pyInt v.cvss_score with
  | none => simp [thresholdCount, intScores, hs]
  | some s =>
    cases hm : intScores vs with
    | none => simp [thresholdCount, intScores, hs, hm]
    | some scores =>
      simp only [thresholdCount, intScores, hs, hm]
      by_cases h : t ≤ (s : ℚ) <;>
        simp [h, List.filter_cons]

/-- When every score fails to be a number convertible by `int()`, the
comprehension of cli.py line 122 raises; here, `thresholdCount` is `none`
as soon as one element fails. -/
theorem thresholdCount_none_of_bad (vulns : List Vulnerability) (t : ℚ)
    (h : ∃ v ∈ vulns, pyInt v.cvss_score = none) :
    thresholdCount vulns t = none := by
  induction vulns with
  | nil => simp at h
  | cons v vs ih =>
    rw [thresholdCount_cons]
    obtain ⟨w, hw, hbad⟩ := h
    rcases List.mem_cons.mp hw with h1 | h2
    · rw [← h1, hbad]
    · cases hv : pyInt v.cvss_score with
      | none => rfl
      | some s => rw [ih ⟨w, h2, hbad⟩]; rfl

/-- On lists whose every member carries a non-negative numeric CVSS score,
the code's count (cli.py line 122, truncating with `int()`) agrees with the
spec's count of vulnerabilities with `cvss_score >= threshold`, for any
integer threshold. -/
theorem thresholdCount_eq_specCount (vulns : List Vulnerability) (t : Int)
    (hnum : ∀ v ∈ vulns, ∃ q : ℚ, v.cvss_score = .num q ∧ 0 ≤ q) :
    thresholdCount vulns (t : ℚ) = some (specCountAtOrAbove vulns (t : ℚ)) := by
  induction vulns with
  | nil => rfl
  | cons v vs ih =>
    obtain ⟨q, hq, hq0⟩ := hnum v (List.mem_cons_self v vs)
    have hvs := fun w hw => hnum w (List.mem_cons_of_mem v hw)
    rw [thresholdCount_cons, hq, pyInt_num, ih hvs]
    by_cases hle : (t : ℚ) ≤ q
    · have h1 : (t : ℚ) ≤ ((q.num.tdiv q.den : Int) : ℚ) := by
        exact_mod_cast (pyTrunc_le_iff q hq0 t).mpr hle
      simp [specCountAtOrAbove, List.filter_cons, hq, hle, h1]
    · have h1 : ¬ ((t : ℚ) ≤ ((q.num.tdiv q.den : Int) : ℚ)) := by
        intro hc
        exact hle ((pyTrunc_le_iff q hq0 t).mp (by exact_mod_cast hc))
      simp [specCountAtOrAbove, List.filter_cons, hq, hle, h1]

theorem cliRun_ok (vs : List Vulnerability) (ign cols : List String)
    (t : ℚ) (plen : Nat) :
    cliRun (.ok vs) ign cols t plen
      = cliTail (filterVulns vs ign) cols t plen := rfl

theorem cliRun_error (m : String) (ign cols : List String) (t : ℚ)
    (plen : Nat) :
    cliRun (.error m) ign cols t plen = ([], .clickException m) := rfl

/-- The unset-threshold (sentinel -1) branch of cli.py lines 125-127. -/
theorem cliTail_unset (vulns : List Vulnerability) (cols : List String)
    (plen : Nat) :
    cliTail vulns cols (-1 : ℚ) plen =
      ((if vulns.isEmpty then [] else
          [.table cols (renderRows vulns cols)]) ++
        [.summary vulns.length plen none],
       .exited (if vulns.length ≠ 0 then 1 else 0)) := by
  have h : ¬ ((0 : ℚ) ≤ -1) := by norm_num
  simp [cliTail, h]

/-- The set-threshold branch of cli.py lines 121-124. -/
theorem cliTail_set (vulns : List Vulnerability) (cols : List String)
    (plen : Nat) (t : ℚ) (ht : 0 ≤ t) :
    cliTail vulns cols t plen =
      match thresholdCount vulns t with
      | none =>
          ((if vulns.isEmpty then [] else
              [.table cols (renderRows vulns cols)]),
           .valueError)
      | some tlen =>
          ((if vulns.isEmpty then [] else
              [.table cols (renderRows vulns cols)]) ++
            [.summary vulns.length plen (some (tlen, t))],
           .exited (if tlen ≠ 0 then 1 else 0)) := by
  simp only [cliTail, if_pos ht]

/-- C5: when the audit engine raises `AuditError` with message `m`, the CLI
surfaces `m` as the user-visible top-level message (the
`click.ClickException` carries exactly `m`), aborts with no partial output
(no table and no summary are emitted), and the exit status is non-zero. -/
theorem c5_audit_error_aborts (m : String) (ign cols : List String)
    (t : ℚ) (plen : Nat) :
    cliRun (.error m) ign cols t plen = ([], .clickException m)
    ∧ exitCode (cliRun (.error m) ign cols t plen).2 ≠ 0 := by
  exact ⟨rfl, by simp [cliRun_error, exitCode]⟩

/-- C6: for every integer threshold `t`, `validate_threshold` accepts `t`
unchanged iff `0 ≤ t ≤ 10` or `t = -1` (the unset sentinel), and raises the
parameter error for every other integer value. -/
theorem c6_validate_threshold_int (t : Int) :
    (validate_threshold (t : ℚ) = .ok (t : ℚ)
        ↔ ((0 ≤ t ∧ t ≤ 10) ∨ t = -1))
    ∧ (validate_threshold (t : ℚ)
          = .error "CVSS score can only be from 0 to 10"
        ↔ ¬ ((0 ≤ t ∧ t ≤ 10) ∨ t = -1)) := by
  have hcast : ((0 ≤ (t : ℚ) ∧ (t : ℚ) ≤ 10) ∨ (t : ℚ) = -1)
      ↔ ((0 ≤ t ∧ t ≤ 10) ∨ t = -1) := by
    exact_mod_cast Iff.rfl
  by_cases h : ((0 ≤ (t : ℚ) ∧ (t : ℚ) ≤ 10) ∨ (t : ℚ) = -1)
  · rw [validate_threshold, if_pos h]
    simp [hcast.mp h]
  · rw [validate_threshold, if_neg h]
    have h2 : ¬ ((0 ≤ t ∧ t ≤ 10) ∨ t = -1) := fun hc => h (hcast.mpr hc)
    simp [h2]

/-- C8: filtering is idempotent: applying the ignore-filter to an
already-filtered list with the same ignore set yields the same list. -/
theorem c8_filter_idempotent (vulns : List Vulnerability)
    (ign : List String) :
    filterVulns (filterVulns vulns ign) ign = filterVulns vulns ign := by
  simp [filterVulns, List.filter_filter]

/-- C10: when both installed and file-listed packages are selected, the
package list handed to the audit engine is exactly the installed packages
followed by the file-listed packages, in that order. -/
theorem c10_package_order (installedPkgs filePkgs : List Package) :
    buildPkgs true true installedPkgs filePkgs
      = installedPkgs ++ filePkgs := by
  simp [buildPkgs]

/-- C2: the filtering step removes exactly those vulnerabilities whose `id`
or `cve` is a member of the ignore set (membership on either field
excludes), preserves the relative order of the remainder, and on the
example records with id "10"/cve "CVE-10" and id "20"/cve "CVE-20",
ignoring ["10", "CVE-20"] leaves zero records. -/
theorem c2_filter_semantics (vulns : List Vulnerability)
    (ign : List String) :
    List.Sublist (filterVulns vulns ign) vulns
    ∧ (∀ v, v ∈ filterVulns vulns ign
        ↔ v ∈ vulns ∧ ¬ (v.id ∈ ign ∨ v.cve ∈ ign))
    ∧ filterVulns vulns ign
        = vulns.filter (fun v => decide (¬ (v.id ∈ ign ∨ v.cve ∈ ign)))
    ∧ filterVulns [mkVuln "10" "CVE-10", mkVuln "20" "CVE-20"]
        ["10", "CVE-20"] = [] := by
  refine ⟨List.filter_sublist _, ?_, ?_, by decide⟩
  · intro v
    simp [filterVulns, List.mem_filter, not_or]
  · apply List.filter_congr
    intro v _
    by_cases h1 : v.id ∈ ign <;> by_cases h2 : v.cve ∈ ign <;>
      simp [h1, h2]

/-- C1: for every completed run, the exit status is non-zero exactly when
the fail condition holds: with the threshold unset (sentinel -1) iff the
post-filter vulnerability count is non-zero; with the threshold set (an
integer 0-10, every remaining vulnerability carrying a numeric score) iff
the count of remaining vulnerabilities at or above the threshold is
non-zero; and the exit status is non-zero whenever an `AuditError` reaches
the top level. -/
theorem c1_exit_status (vs : List Vulnerability) (ign cols : List String)
    (plen : Nat) (m : String) (t : Int) (ht0 : 0 ≤ t) (ht10 : t ≤ 10)
    (hnum : ∀ v ∈ filterVulns vs ign,
      ∃ q : ℚ, v.cvss_score = PyVal.num q ∧ 0 ≤ q) :
    (exitCode (cliRun (.ok vs) ign cols (-1) plen).2 ≠ 0
        ↔ filterVulns vs ign ≠ [])
    ∧ (exitCode (cliRun (.ok vs) ign cols (t : ℚ) plen).2 ≠ 0
        ↔ specCountAtOrAbove (filterVulns vs ign) (t : ℚ) ≠ 0)
    ∧ exitCode (cliRun (.error m) ign cols (t : ℚ) plen).2 ≠ 0 := by
  refine ⟨?_, ?_, by simp [cliRun_error, exitCode]⟩
  · rw [cliRun_ok, cliTail_unset]
    by_cases h : filterVulns vs ign = []
    · simp [exitCode, h]
    · have hlen : (filterVulns vs ign).length ≠ 0 := by
        simpa [List.length_eq_zero] using h
      simp [exitCode, h, hlen]
  · rw [cliRun_ok, cliTail_set _ _ _ _ (by exact_mod_cast ht0),
      thresholdCount_eq_specCount _ _ hnum]
    by_cases h : specCountAtOrAbove (filterVulns vs ign) (t : ℚ) = 0 <;>
      simp [exitCode, h]

/-- Witness for C1 at a concrete input: one surviving vulnerability with
CVSS score 7, threshold 5, package count 1, message "boom". -/
theorem c1_exit_status_witness :
    (exitCode (cliRun (.ok [mkScored 7]) [] ["name"] (-1) 1).2 ≠ 0
        ↔ filterVulns [mkScored 7] [] ≠ [])
    ∧ (exitCode (cliRun (.ok [mkScored 7]) [] ["name"] ((5 : Int) : ℚ) 1).2 ≠ 0
        ↔ specCountAtOrAbove (filterVulns [mkScored 7] []) ((5 : Int) : ℚ) ≠ 0)
    ∧ exitCode (cliRun (.error "boom") [] ["name"] ((5 : Int) : ℚ) 1).2 ≠ 0 := by
  refine c1_exit_status [mkScored 7] [] ["name"] 1 "boom" 5
    (by decide) (by decide) ?_
  intro v hv
  have he : filterVulns [mkScored 7] [] = [mkScored 7] := by decide
  rw [he] at hv
  have hv7 : v = mkScored 7 := by simpa using hv
  exact ⟨7, by rw [hv7]; rfl, by decide⟩

/-- C3: for every filtered vulnerability list (each member carrying a
numeric score), with the threshold unset the outcome is fail iff the list
is non-empty; with the threshold set (integer 0-10) the outcome is fail iff
the count of vulnerabilities with `cvss_score >= threshold` is non-zero;
and in both branches the run ends with a summary line reporting the
vulnerability count and package count, plus the at-or-above count when the
threshold is set. -/
theorem c3_threshold_outcome_and_summary (vulns : List Vulnerability)
    (cols : List String) (plen : Nat) (t : Int) (ht0 : 0 ≤ t) (ht10 : t ≤ 10)
    (hnum : ∀ v ∈ vulns, ∃ q : ℚ, v.cvss_score = PyVal.num q ∧ 0 ≤ q) :
    (exitCode (cliTail vulns cols (-1) plen).2 ≠ 0 ↔ vulns ≠ [])
    ∧ (exitCode (cliTail vulns cols (t : ℚ) plen).2 ≠ 0
        ↔ specCountAtOrAbove vulns (t : ℚ) ≠ 0)
    ∧ (cliTail vulns cols (-1) plen).1.getLast?
        = some (.summary vulns.length plen none)
    ∧ (cliTail vulns cols (t : ℚ) plen).1.getLast?
        = some (.summary vulns.length plen
            (some (specCountAtOrAbove vulns (t : ℚ), (t : ℚ)))) := by
  have hset := cliTail_set vulns cols plen (t : ℚ) (by exact_mod_cast ht0)
  rw [thresholdCount_eq_specCount _ _ hnum] at hset
  refine ⟨?_, ?_, ?_, ?_⟩
  · rw [cliTail_unset]
    by_cases h : vulns = []
    · simp [exitCode, h]
    · have hlen : vulns.length ≠ 0 := by simpa [List.length_eq_zero] using h
      simp [exitCode, h, hlen]
  · rw [hset]
    by_cases h : specCountAtOrAbove vulns (t : ℚ) = 0 <;> simp [exitCode, h]
  · rw [cliTail_unset]
    exact List.getLast?_concat _
  · rw [hset]
    exact List.getLast?_concat _

/-- Witness for C3 at a concrete input: two vulnerabilities with scores 3
and 8, threshold 5, package count 2. -/
theorem c3_threshold_outcome_and_summary_witness :
    (exitCode (cliTail [mkScored 3, mkScored 8] ["name"] (-1) 2).2 ≠ 0
        ↔ [mkScored 3, mkScored 8] ≠ ([] : List Vulnerability))
    ∧ (exitCode (cliTail [mkScored 3, mkScored 8] ["name"] ((5 : Int) : ℚ) 2).2 ≠ 0
        ↔ specCountAtOrAbove [mkScored 3, mkScored 8] ((5 : Int) : ℚ) ≠ 0)
    ∧ (cliTail [mkScored 3, mkScored 8] ["name"] (-1) 2).1.getLast?
        = some (.summary 2 2 none)
    ∧ (cliTail [mkScored 3, mkScored 8] ["name"] ((5 : Int) : ℚ) 2).1.getLast?
        = some (.summary 2 2
            (some (specCountAtOrAbove [mkScored 3, mkScored 8] ((5 : Int) : ℚ),
              ((5 : Int) : ℚ)))) := by
  refine c3_threshold_outcome_and_summary [mkScored 3, mkScored 8] ["name"] 2 5
    (by decide) (by decide) ?_
  intro v hv
  rcases List.mem_cons.mp hv with h3 | hv2
  · exact ⟨3, by rw [h3]; rfl, by decide⟩
  · have h8 : v = mkScored 8 := by simpa using hv2
    exact ⟨8, by rw [h8]; rfl, by decide⟩

/-- C4 counterexample: on vulnerabilities with CVSS scores [2.0, 5.5, 9.0]
and threshold 5.5 the code's count (cli.py line 122) is 1, not the claimed
2, because each score is truncated with `int()` before the comparison
(int(5.5) = 5 < 5.5). -/
theorem c4_threshold_example_counterexample :
    q55 = 11 / 2
    ∧ thresholdCount [mkScored 2, mkScored q55, mkScored 9] q55 = some 1
    ∧ (1 : Nat) ≠ 2 :=
  ⟨q55_eq, by decide, by decide⟩

/-- C4 amended: threshold evaluation on CVSS scores [2.0, 5.5, 9.0] with
threshold 5.5 yields a count of 1 (the code truncates each score with
`int()` before comparing, so 5.5 counts as 5) and the outcome is still
fail; with the threshold unset and any non-empty vulnerability list the
outcome is fail; with an empty list and the threshold unset the outcome is
pass. -/
theorem c4_threshold_example_amended (vulns : List Vulnerability)
    (cols cols2 : List String) (plen plen2 : Nat) (h : vulns ≠ []) :
    q55 = 11 / 2
    ∧ thresholdCount [mkScored 2, mkScored q55, mkScored 9] q55 = some 1
    ∧ (cliTail [mkScored 2, mkScored q55, mkScored 9] cols q55 plen).2
        = .exited 1
    ∧ exitCode (cliTail vulns cols (-1) plen).2 ≠ 0
    ∧ (cliTail [] cols2 (-1) plen2).2 = .exited 0 := by
  have hc : thresholdCount [mkScored 2, mkScored q55, mkScored 9] q55
      = some 1 := by decide
  refine ⟨q55_eq, hc, ?_, ?_, ?_⟩
  · rw [cliTail_set _ _ _ _ (by decide : (0 : ℚ) ≤ q55), hc]
    simp
  · rw [cliTail_unset]
    have hlen : vulns.length ≠ 0 := by simpa [List.length_eq_zero] using h
    simp [exitCode, hlen]
  · rw [cliTail_unset]
    rfl

/-- Witness for C4's amended statement at a concrete non-empty list. -/
theorem c4_threshold_example_amended_witness :
    q55 = 11 / 2
    ∧ thresholdCount [mkScored 2, mkScored q55, mkScored 9] q55 = some 1
    ∧ (cliTail [mkScored 2, mkScored q55, mkScored 9] ["name"] q55 1).2
        = .exited 1
    ∧ exitCode (cliTail [mkVuln "a" ""] ["name"] (-1) 1).2 ≠ 0
    ∧ (cliTail [] ["x"] (-1) 0).2 = .exited 0 :=
  c4_threshold_example_amended [mkVuln "a" ""] ["name"] ["x"] 1 0 (by decide)

/-- C9: with the threshold set (>= 0), whenever some remaining
vulnerability's `cvss_score` is unset or not convertible by `int()`, the
count computation of cli.py line 122 raises an uncaught conversion error —
distinct from an `AuditError`/`ClickException` — and no count or summary
line is produced. -/
theorem c9_conversion_error (vs : List Vulnerability)
    (ign cols : List String) (t : ℚ) (plen : Nat) (ht : 0 ≤ t)
    (hbad : ∃ v ∈ filterVulns vs ign, pyInt v.cvss_score = none) :
    (cliRun (.ok vs) ign cols t plen).2 = .valueError
    ∧ (∀ m, Outcome.valueError ≠ Outcome.clickException m)
    ∧ ∀ item ∈ (cliRun (.ok vs) ign cols t plen).1,
        ∀ vlen plen2 tinfo, item ≠ OutputItem.summary vlen plen2 tinfo := by
  have hnone := thresholdCount_none_of_bad (filterVulns vs ign) t hbad
  rw [cliRun_ok, cliTail_set _ _ _ _ ht, hnone]
  refine ⟨rfl, by simp, ?_⟩
  intro item hitem vlen plen2 tinfo
  by_cases he : (filterVulns vs ign).isEmpty
  · simp [he] at hitem
  · simp only [Bool.not_eq_true] at he
    simp [he] at hitem
    subst hitem
    simp

/-- Witness for C9: a single vulnerability with an unset score and
threshold 0. -/
theorem c9_conversion_error_witness :
    (cliRun (.ok [mkVuln "x" "y"]) [] ["name"] 0 0).2 = .valueError
    ∧ Outcome.valueError ≠ Outcome.clickException "xyz"
    ∧ OutputItem.table ["name"] (renderRows [mkVuln "x" "y"] ["name"])
        ≠ OutputItem.summary 1 0 none := by
  obtain ⟨h1, h2, h3⟩ := c9_conversion_error [mkVuln "x" "y"] [] ["name"] 0 0
    (by decide) ⟨mkVuln "x" "y", by decide, rfl⟩
  exact ⟨h1, h2 "xyz", h3 _ (by decide) 1 0 none⟩

/-- C7: for every non-empty filtered vulnerability list and requested
column sequence, the table is the first output emitted and has one row per
vulnerability with one cell per requested column; each cell is the
attribute of the record named by the lowercased column name, and a column
name that is not an attribute yields an empty cell rather than a failure. -/
theorem c7_render_rows (vulns : List Vulnerability) (cols : List String)
    (plen : Nat) (t : ℚ) (i : Nat) (hne : vulns ≠ []) :
    (cliTail vulns cols t plen).1.head?
        = some (.table cols (renderRows vulns cols))
    ∧ (renderRows vulns cols).length = vulns.length
    ∧ (∀ row ∈ renderRows vulns cols, row.length = cols.length)
    ∧ (renderRows vulns cols)[i]?
        = (vulns[i]?).map
            (fun v => cols.map fun c => pyGetattr v (pyLower c) (.str ""))
    ∧ ∀ (v : Vulnerability) (c : String), pyLower c ∉ vulnFieldNames →
        pyGetattr v (pyLower c) (.str "") = .str "" := by
  have hemp : vulns.isEmpty = false := by
    cases vulns with
    | nil => exact absurd rfl hne
    | cons a l => rfl
  refine ⟨?_, by simp [renderRows], ?_, ?_, ?_⟩
  · rcases le_or_lt 0 t with ht | ht
    · rw [cliTail_set _ _ _ _ ht]
      cases hc : thresholdCount vulns t <;> simp [hemp]
    · have hnn : ¬ (0 ≤ t) := not_le.mpr ht
      simp [cliTail, hnn, hemp]
  · intro row hrow
    simp only [renderRows, List.mem_map] at hrow
    obtain ⟨v, _, rfl⟩ := hrow
    simp
  · simp [renderRows, List.getElem?_map]
  · intro v c hc
    unfold pyGetattr
    split_ifs <;> simp_all [vulnFieldNames]

/-- Witness for C7 at a concrete input: one vulnerability, columns "name"
and "bogus" (the latter not an attribute). -/
theorem c7_render_rows_witness :
    (cliTail [mkVuln "a" "b"] ["name", "bogus"] (-1) 0).1.head?
        = some (.table ["name", "bogus"]
            (renderRows [mkVuln "a" "b"] ["name", "bogus"]))
    ∧ (renderRows [mkVuln "a" "b"] ["name", "bogus"]).length
        = [mkVuln "a" "b"].length
    ∧ (renderRows [mkVuln "a" "b"] ["name", "bogus"])[0]?
        = ([mkVuln "a" "b"][0]?).map
            (fun v => ["name", "bogus"].map
              fun c => pyGetattr v (pyLower c) (.str ""))
    ∧ pyGetattr (mkVuln "a" "b") (pyLower "bogus") (.str "") = .str "" := by
  obtain ⟨h1, h2, h3, h4, h5⟩ :=
    c7_render_rows [mkVuln "a" "b"] ["name", "bogus"] 0 (-1) 0 (by decide)
  exact ⟨h1, h2, h4, h5 (mkVuln "a" "b") "bogus" (by decide)⟩
